import Mathlib

/-!
Verification development for the Qualit'EnR web scraper
(`qualit_enr_scraper.py` on top of `utils/basescraper.py`).

The Python code is shallowly embedded: pure computations become Lean
functions, the scraper's mutable state (`self.request_count`,
`self.default_headers`, ...) becomes an explicit `ScraperState` threaded
through the request functions, network and HTML-parsing effects become
oracle parameters (one abstract outcome per attempt / one abstract parsed
page), and Python exceptions become `Except` / `Option` results.
-/

namespace QualitEnr

/-! ## Pagination (`scrape_region_category`, qualit_enr_scraper.py lines 93-136)

The page-1 result count arrives from HTML parsing; we abstract the parse as
`Option Nat` (`none` = the `try` block at lines 108-114 raised, e.g. the
`company-search-results` element is missing or unparsable). -/

/-- Line 111: `total_pages = (total_count // 20) + 1`. -/
def totalPagesFromCount (total_count : Nat) : Nat :=
  total_count / 20 + 1

/-- The value `total_pages` holds after lines 106-114 on page 1:
initialised to 1 (line 106), replaced by `(total_count // 20) + 1` when the
count parse succeeds, left at 1 when the `try` block raises. -/
def totalPagesOnPageOne (count1 : Option Nat) : Nat :=
  match count1 with
  | some c => totalPagesFromCount c
  | none => 1

/-- The `while True` loop of lines 99-133, projected onto the sequence of
page numbers it fetches.  Faithful detail: `total_pages` is (re)assigned
at line 106 on EVERY iteration, so on any page other than 1 it is 1.
`fuel` is an upper bound on the number of iterations, a termination
artifact only (see `pageLoop_high_page` / `pageLoop_fuel_independent`:
the loop never runs more than two iterations). -/
def pageLoop (count1 : Option Nat) : Nat → Nat → List Nat
  | 0, _ => []
  | fuel + 1, page =>
    let total_pages := if page = 1 then totalPagesOnPageOne count1 else 1
    page :: (if total_pages ≤ page then [] else pageLoop count1 fuel (page + 1))

/-- The list of pages `scrape_region_category` fetches, starting at
`page = 1` (line 97). -/
def scrapedPages (count1 : Option Nat) : List Nat :=
  pageLoop count1 10 1

/-- From any page ≥ 2 the loop stops immediately: line 106 has reset
`total_pages` to 1 and `page >= total_pages` (line 131) holds. -/
theorem pageLoop_high_page (count1 : Option Nat) (fuel page : Nat)
    (hf : 1 ≤ fuel) (hp : 2 ≤ page) : pageLoop count1 fuel page = [page] := by
  obtain ⟨f, rfl⟩ : ∃ f, fuel = f + 1 := ⟨fuel - 1, by omega⟩
  have hne : page ≠ 1 := by omega
  simp [pageLoop, hne]
  omega

/-- The fuel plays no role once it is at least 2: the loop visits page 1,
then either stops there or visits page 2 and stops. -/
theorem pageLoop_fuel_independent (count1 : Option Nat) (fuel : Nat)
    (hf : 2 ≤ fuel) :
    pageLoop count1 fuel 1 =
      if totalPagesOnPageOne count1 ≤ 1 then [1] else [1, 2] := by
  obtain ⟨f, rfl⟩ : ∃ f, fuel = f + 2 := ⟨fuel - 2, by omega⟩
  by_cases h : totalPagesOnPageOne count1 ≤ 1
  · simp [pageLoop, h]
  · simp [pageLoop, h]

/-- C5: for every non-negative parsed total result count the computed page
count is `total_count // 20 + 1`; in particular 45 results yield 3 pages
(and, as the spec's open question records, an exact multiple such as 40
also yields 3 pages, the last one empty). -/
theorem totalPages_formula (n : Nat) :
    totalPagesFromCount n = n / 20 + 1 ∧
    totalPagesFromCount 45 = 3 ∧ totalPagesFromCount 40 = 3 :=
  ⟨rfl, by decide, by decide⟩

/-- C1: evaluating the pagination loop at a page-1 count of 45 results
(hence a computed total of 3 pages) shows that only pages 1 and 2 are
fetched — page 3 is never requested, because line 106 resets
`total_pages` to 1 on the second iteration and the `page >= total_pages`
check at line 131 then fires at page 2.  The soft-failure path (count
unparsable) does stop after the single page 1. -/
theorem scrape_region_category_pages_bug :
    totalPagesOnPageOne (some 45) = 3 ∧
    scrapedPages (some 45) = [1, 2] ∧
    3 ∉ scrapedPages (some 45) ∧
    scrapedPages none = [1] := by
  refine ⟨by decide, by decide, by decide, by decide⟩

/-! ## Python string helpers

`str.split(sep)` with a non-empty separator and `sep.join(...)`, modelled
over `List Char` with structural recursion (`fuel` bounds the scan length;
`length + 1` always suffices since each step consumes at least one
character). -/

/-- `sep` is a prefix of the first list. -/
def listStartsWith : List Char → List Char → Bool
  | _, [] => true
  | [], _ :: _ => false
  | a :: as, b :: bs => a == b && listStartsWith as bs

/-- Scanner for Python `str.split(sep)`: at each position, if the remaining
input starts with `sep`, emit the accumulated segment and skip `sep`;
otherwise move one character into the accumulator. -/
def pySplitGo (sep : List Char) : Nat → List Char → List Char → List (List Char)
  | 0, rest, cur => [cur ++ rest]
  | _ + 1, [], cur => [cur]
  | fuel + 1, c :: cs, cur =>
    if listStartsWith (c :: cs) sep then
      cur :: pySplitGo sep fuel ((c :: cs).drop sep.length) []
    else
      pySplitGo sep fuel cs (cur ++ [c])

/-- Python `s.split(sep)` for a non-empty separator (the only uses in the
scraper are `"||"` and `" "`; Python raises on an empty separator, which we
never hit). -/
def pySplit (s sep : String) : List String :=
  (pySplitGo sep.toList (s.toList.length + 1) s.toList []).map String.mk

/-- Python `sep.join(parts)`. -/
def pyJoin (sep : String) : List String → String
  | [] => ""
  | [x] => x
  | x :: y :: rest => x ++ sep ++ pyJoin sep (y :: rest)

/-! ## Company-detail extraction (`_get_company_details`, lines 56-91)

A fetched listing page is abstracted by what the four `soup.find` calls
can return.  `phoneAnchor`: `none` = no `phone-container d-none` div
(phone becomes `""`), `some none` = container without an `<a>` (raises),
`some (some t)` = anchor with text `t`.  `skillsSibling` only matters when
`skillsHeading` is true; `some t` is the `div.cms` sibling's text, `none`
means the sibling is missing (raises). -/

structure ListingPage where
  h1 : Option String
  addrText : Option String
  skillsHeading : Bool
  skillsSibling : Option String
  phoneAnchor : Option (Option String)
deriving Repr, DecidableEq

structure CompanyRecord where
  link : String
  type : String
  name : String
  zip_code : String
  city : String
  street : String
  phone : String
  skills_name : String
deriving Repr, DecidableEq

/-- Lines 64-71: split the address block text on `"||"`; first segment is
the street, the last segment is split on spaces into postal code (first
token) and city (space-joined remainder). -/
def splitAddress (addr : String) : String × String × String :=
  let addr_sp := pySplit addr "||"
  let street := addr_sp.headD ""
  let zip_city := addr_sp.getLastD ""
  let zip_city_sp := pySplit zip_city " "
  let zip_code := zip_city_sp.headD ""
  let city := pyJoin " " (zip_city_sp.drop 1)
  (street, zip_code, city)

/-- `_get_company_details` (lines 56-91): any raise inside the `try` block
(missing `<h1>`, missing address div, missing skills sibling when the
heading is present, phone container without an anchor) is caught at line
89 and yields the empty dict, modelled as `none`. -/
def get_company_details (link category : String) (p : ListingPage) :
    Option CompanyRecord := do
  let name ← p.h1
  let addr ← p.addrText
  let (street, zip_code, city) := splitAddress addr
  let skills_name ← if p.skillsHeading then p.skillsSibling else some ""
  let phone ← match p.phoneAnchor with
    | none => some ""
    | some a => a
  some { link := link, type := category, name := name, zip_code := zip_code,
         city := city, street := street, phone := phone,
         skills_name := skills_name }

/-- The per-page listing loop (lines 117-124): each `results-item` link is
fetched and extracted; a falsy (empty) extraction is skipped, a truthy one
is appended to `results` and saved to CSV.  First component: `results`;
second: the sequence of records passed to `save_to_csv`, in order. -/
def processListings (category : String) (items : List (String × ListingPage)) :
    List CompanyRecord × List CompanyRecord :=
  items.foldl
    (fun acc it =>
      match get_company_details it.1 category it.2 with
      | some r => (acc.1 ++ [r], acc.2 ++ [r])
      | none => acc)
    ([], [])

/-- C8: the address text `"12 Rue des Fleurs||75000 Paris"` splits into
street `"12 Rue des Fleurs"`, postal code `"75000"`, city `"Paris"`; in
general the first `||`-segment is the street and the last segment is split
on spaces with first token the postal code and the space-joined remainder
the city. -/
theorem splitAddress_example :
    splitAddress "12 Rue des Fleurs||75000 Paris" =
      ("12 Rue des Fleurs", "75000", "Paris") ∧
    ∀ t, splitAddress t =
      ((pySplit t "||").headD "",
       (pySplit ((pySplit t "||").getLastD "") " ").headD "",
       pyJoin " " ((pySplit ((pySplit t "||").getLastD "") " ").drop 1)) :=
  ⟨by decide, fun _ => rfl⟩

/-- C7: a listing page lacking the skills heading yields a record whose
skills field is `""` (no error); a listing page lacking an `<h1>` makes
that single listing's extraction empty, and such a listing is skipped by
the per-page loop — neither appended to the results nor saved — without
disturbing the processing of the remaining listings. -/
theorem missing_fields_handling :
    (∀ link category name addr sib,
      (get_company_details link category
        { h1 := some name, addrText := some addr, skillsHeading := false,
          skillsSibling := sib, phoneAnchor := none }).map
            CompanyRecord.skills_name = some "") ∧
    (∀ link category addrT sh ss pa,
      get_company_details link category
        { h1 := none, addrText := addrT, skillsHeading := sh,
          skillsSibling := ss, phoneAnchor := pa } = none) ∧
    (∀ category pre link addrT sh ss pa post,
      processListings category
        (pre ++ (link, { h1 := none, addrText := addrT, skillsHeading := sh,
                         skillsSibling := ss, phoneAnchor := pa :
                         ListingPage }) :: post) =
      processListings category (pre ++ post)) := by
  refine ⟨?_, ?_, ?_⟩
  · intro link category name addr sib
    rcases hsp : splitAddress addr with ⟨s, z, c⟩
    simp [get_company_details, hsp]
  · intro link category addrT sh ss pa
    rfl
  · intro category pre link addrT sh ss pa post
    unfold processListings
    rw [List.foldl_append, List.foldl_append, List.foldl_cons]
    rfl

/-! ## Requests with retry (`basescraper.py` lines 102-224)

`make_request` is decorated with `@retry(tries=3, delay=1, backoff=2)`:
on any exception the whole body re-runs after a backoff sleep (1 s, then
2 s), at most 3 attempts.  The body sleeps a random pre-request delay,
increments `self.request_count`, merges per-call headers/cookies into
fresh dicts, performs the HTTP request (abstracted by an oracle giving
each attempt's outcome) and calls `raise_for_status`.

Mutable scraper state is threaded explicitly; the network is the oracle
`outcomes : Nat → Option Response` (`none` = the request raised, e.g. a
network error) and the random-delay draws are the oracle
`draws : Nat → Rat`. -/

/-- An HTTP response: status code and body text. -/
structure Response where
  status : Nat
  body : String
deriving Repr, DecidableEq

/-- The scraper state fields `make_request` reads or writes
(`__init__`, lines 62-70; `request_delay` is stored exactly as passed). -/
structure ScraperState where
  request_count : Nat
  default_headers : List (String × String)
  default_cookies : List (String × String)
  request_delay : Option (Rat × Rat)
deriving Repr, DecidableEq

/-- Python `{**a, **b}` on ordered dicts encoded as association lists:
insert the pairs of `a` then of `b` in order, later values overriding
earlier ones in place. -/
def pyDictInsert (d : List (String × String)) (k v : String) :
    List (String × String) :=
  if d.any (fun p => p.1 = k) then
    d.map (fun p => if p.1 = k then (k, v) else p)
  else d ++ [(k, v)]

/-- Build a Python dict from a pair list (deduplicating keys in order). -/
def pyDictOf (l : List (String × String)) : List (String × String) :=
  l.foldl (fun d p => pyDictInsert d p.1 p.2) []

/-- `{**defaults, **overrides}` (lines 161-162). -/
def pyDictMerge (defaults overrides : List (String × String)) :
    List (String × String) :=
  pyDictOf (defaults ++ overrides)

/-- `_random_delay` (lines 102-107): sleeps only when `self.request_delay`
is truthy (a pair is always truthy, `None` is not) and its second
component is positive; the slept duration is the `random.uniform` draw.
Returns the slept duration, `none` when no sleep happens. -/
def random_delay (request_delay : Option (Rat × Rat)) (draw : Rat) :
    Option Rat :=
  match request_delay with
  | some (_, hi) => if 0 < hi then some draw else none
  | none => none

/-- What one attempt of the `make_request` body observably did. -/
structure AttemptTrace where
  preDelay : Option Rat
  usedHeaders : List (String × String)
  usedCookies : List (String × String)
deriving Repr, DecidableEq

/-- One run of the `make_request` body (lines 155-224): random pre-delay,
`request_count += 1`, merge headers/cookies into fresh dicts, perform the
request; `raise_for_status` (line 206) raises for a 4xx/5xx status, and a
`none` outcome is a raised `RequestException`. -/
def make_request_body (s : ScraperState) (hdrs cks : List (String × String))
    (draw : Rat) (outcome : Option Response) :
    ScraperState × AttemptTrace × Except String Response :=
  ({ s with request_count := s.request_count + 1 },
   { preDelay := random_delay s.request_delay draw
     usedHeaders := pyDictMerge s.default_headers hdrs
     usedCookies := pyDictMerge s.default_cookies cks },
   match outcome with
   | none => .error "RequestException"
   | some r =>
     if 400 ≤ r.status ∧ r.status < 600 then .error "HTTPError" else .ok r)

/-- The full effect of one decorated `make_request` call. -/
structure RequestRun where
  backoffSleeps : List Nat
  attempts : List AttemptTrace
  finalState : ScraperState
  result : Except String Response
deriving Repr

/-- The `retry` decorator's loop: run the body; on an exception, if tries
remain, sleep `delay` seconds (then double it) and re-run, else re-raise. -/
def retryLoop (outcomes : Nat → Option Response) (draws : Nat → Rat)
    (hdrs cks : List (String × String)) :
    Nat → Nat → Nat → ScraperState → RequestRun
  | 0, _, _, s =>
    { backoffSleeps := [], attempts := [], finalState := s,
      result := .error "retry exhausted" }
  | tries + 1, delay, i, s =>
    let (s', tr, res) := make_request_body s hdrs cks (draws i) (outcomes i)
    match res with
    | .ok r =>
      { backoffSleeps := [], attempts := [tr], finalState := s',
        result := .ok r }
    | .error e =>
      if tries = 0 then
        { backoffSleeps := [], attempts := [tr], finalState := s',
          result := .error e }
      else
        let rest := retryLoop outcomes draws hdrs cks tries (delay * 2) (i + 1) s'
        { backoffSleeps := delay :: rest.backoffSleeps
          attempts := tr :: rest.attempts
          finalState := rest.finalState
          result := rest.result }

/-- `make_request` as called by users: `@retry(tries=3, delay=1, backoff=2)`
(line 120). -/
def make_request (outcomes : Nat → Option Response) (draws : Nat → Rat)
    (s : ScraperState) (hdrs cks : List (String × String)) : RequestRun :=
  retryLoop outcomes draws hdrs cks 3 1 0 s

/-- Attempt `i` fails: network error, or a status `raise_for_status`
rejects. -/
def attemptFails (o : Option Response) : Prop :=
  match o with
  | none => True
  | some r => 400 ≤ r.status ∧ r.status < 600

/-- `QualitEnrConfig.REQUEST_DELAY` (qualit_enr_scraper.py line 33) is
`None`, passed through `BaseScraper.__init__` (line 49 / line 68) into
`self.request_delay` unchanged. -/
def QualitEnrConfig.REQUEST_DELAY : Option (Rat × Rat) := none

/-- `BaseScraper.__init__`'s default `request_delay=(1.0, 3.0)`
(basescraper.py line 43), in effect only when the argument is omitted. -/
def baseScraperDefaultDelay : Option (Rat × Rat) := some (1, 3)

/-- Invariants of the retry loop: the body only writes `request_count`, so
the stored defaults and the delay window survive every attempt, every
attempt's merged headers/cookies are built from the original defaults, and
attempt `j`'s pre-request delay is `random_delay` of the stored window at
draw `j`. -/
theorem retryLoop_invariants (outcomes : Nat → Option Response)
    (draws : Nat → Rat) (hdrs cks : List (String × String)) :
    ∀ tries delay i s,
      ((retryLoop outcomes draws hdrs cks tries delay i s).finalState.default_headers
          = s.default_headers) ∧
      ((retryLoop outcomes draws hdrs cks tries delay i s).finalState.default_cookies
          = s.default_cookies) ∧
      ((retryLoop outcomes draws hdrs cks tries delay i s).finalState.request_delay
          = s.request_delay) ∧
      ((retryLoop outcomes draws hdrs cks tries delay i s).attempts.map
            AttemptTrace.usedHeaders
          = List.replicate
              (retryLoop outcomes draws hdrs cks tries delay i s).attempts.length
              (pyDictMerge s.default_headers hdrs)) ∧
      ((retryLoop outcomes draws hdrs cks tries delay i s).attempts.map
            AttemptTrace.usedCookies
          = List.replicate
              (retryLoop outcomes draws hdrs cks tries delay i s).attempts.length
              (pyDictMerge s.default_cookies cks)) ∧
      ((retryLoop outcomes draws hdrs cks tries delay i s).attempts.map
            AttemptTrace.preDelay
          = (List.range' i
              (retryLoop outcomes draws hdrs cks tries delay i s).attempts.length).map
              (fun j => random_delay s.request_delay (draws j))) := by
  intro tries
  induction tries with
  | zero => intro delay i s; simp [retryLoop]
  | succ t ih =>
    intro delay i s
    rcases ho : outcomes i with _ | r
    · by_cases ht : t = 0
      · subst ht; simp [retryLoop, make_request_body, ho, List.range']
      · have := ih (delay * 2) (i + 1)
          { s with request_count := s.request_count + 1 }
        simp only [retryLoop, make_request_body, ho, if_neg ht]
        simp only [List.map_cons, List.length_cons, List.range'_succ,
          List.replicate_succ] at this ⊢
        exact ⟨this.1, this.2.1, this.2.2.1,
          by rw [this.2.2.2.1], by rw [this.2.2.2.2.1],
          by rw [this.2.2.2.2.2]⟩
    · by_cases hst : 400 ≤ r.status ∧ r.status < 600
      · by_cases ht : t = 0
        · subst ht
          simp [retryLoop, make_request_body, ho, if_pos hst, List.range']
        · have := ih (delay * 2) (i + 1)
            { s with request_count := s.request_count + 1 }
          simp only [retryLoop, make_request_body, ho, if_pos hst, if_neg ht]
          simp only [List.map_cons, List.length_cons, List.range'_succ,
            List.replicate_succ] at this ⊢
          exact ⟨this.1, this.2.1, this.2.2.1,
            by rw [this.2.2.2.1], by rw [this.2.2.2.2.1],
            by rw [this.2.2.2.2.2]⟩
      · simp [retryLoop, make_request_body, ho, if_neg hst, List.range']

/-- The request result is a failure (a raised exception), not a response. -/
def isFailure : Except String Response → Bool
  | .error _ => true
  | .ok _ => false

/-- A scraper state with empty defaults and no delay window, used to
instantiate the request theorems at concrete inputs. -/
def emptyState : ScraperState :=
  { request_count := 0, default_headers := [], default_cookies := [],
    request_delay := none }

/-- Outcome oracle: attempt 0 is a network error, attempt 1 returns HTTP
500, attempt 2 returns HTTP 200. -/
def failFailOk : Nat → Option Response
  | 0 => none
  | 1 => some { status := 500, body := "" }
  | _ => some { status := 200, body := "ok" }

/-- C10: `make_request` never mutates the stored `default_headers` or
`default_cookies`; every attempt merges the per-call overrides into a
fresh dict built from the unchanged defaults (overrides winning), so the
defaults seen by any later call equal those set at construction. -/
theorem make_request_preserves_defaults (outcomes : Nat → Option Response)
    (draws : Nat → Rat) (s : ScraperState)
    (hdrs cks : List (String × String)) :
    ((make_request outcomes draws s hdrs cks).finalState.default_headers
        = s.default_headers) ∧
    ((make_request outcomes draws s hdrs cks).finalState.default_cookies
        = s.default_cookies) ∧
    ((make_request outcomes draws s hdrs cks).attempts.map
          AttemptTrace.usedHeaders
        = List.replicate (make_request outcomes draws s hdrs cks).attempts.length
            (pyDictMerge s.default_headers hdrs)) ∧
    ((make_request outcomes draws s hdrs cks).attempts.map
          AttemptTrace.usedCookies
        = List.replicate (make_request outcomes draws s hdrs cks).attempts.length
            (pyDictMerge s.default_cookies cks)) := by
  have h := retryLoop_invariants outcomes draws hdrs cks 3 1 0 s
  exact ⟨h.1, h.2.1, h.2.2.2.1, h.2.2.2.2.1⟩

/-- C6: `QualitEnrConfig.REQUEST_DELAY` is `None` (despite the adjacent
comment promising a 1-3 second random delay), and `BaseScraper.__init__`
stores the argument as passed, so `_random_delay` never sleeps for the
Qualit'EnR scraper: every attempt of every `make_request` call has no
pre-request delay.  (The 1-3 s default window applies only when the
`request_delay` argument is omitted.) -/
theorem qualit_enr_no_pre_request_sleep :
    (∀ draw, random_delay QualitEnrConfig.REQUEST_DELAY draw = none) ∧
    (∀ (outcomes : Nat → Option Response) (draws : Nat → Rat)
        (hdrs cks : List (String × String)) (n : Nat)
        (dh dc : List (String × String)),
      (make_request outcomes draws
          { request_count := n, default_headers := dh, default_cookies := dc,
            request_delay := QualitEnrConfig.REQUEST_DELAY } hdrs cks).attempts.map
            AttemptTrace.preDelay
        = List.replicate
            (make_request outcomes draws
              { request_count := n, default_headers := dh,
                default_cookies := dc,
                request_delay := QualitEnrConfig.REQUEST_DELAY } hdrs cks).attempts.length
            none) := by
  constructor
  · intro draw; rfl
  · intro outcomes draws hdrs cks n dh dc
    have h := (retryLoop_invariants outcomes draws hdrs cks 3 1 0
      { request_count := n, default_headers := dh, default_cookies := dc,
        request_delay := QualitEnrConfig.REQUEST_DELAY }).2.2.2.2.2
    rw [make_request, h]
    simp [random_delay, QualitEnrConfig.REQUEST_DELAY, List.map_const',
      List.length_range']

/-- C3 counterexample: with attempt outcomes (network error, HTTP 500,
HTTP 200), the decorated `make_request` returns the successful response,
but `request_count` rises from 0 to 3 — the `@retry` decorator re-runs the
whole body, so `self.request_count += 1` executes once per attempt, not
once per call. -/
theorem make_request_count_rises_by_three :
    (make_request failFailOk (fun _ => 0) emptyState [] []).result
        = Except.ok { status := 200, body := "ok" } ∧
    (make_request failFailOk (fun _ => 0) emptyState [] []).finalState.request_count
        = 3 ∧
    (make_request failFailOk (fun _ => 0) emptyState [] []).finalState.request_count
        ≠ emptyState.request_count + 1 := by
  refine ⟨rfl, rfl, by decide⟩

/-- C3 (amended): a fetch that fails on its first two attempts and
succeeds on the third returns the successful response, and the scraper's
`request_count` increases by exactly 3 — one per attempt — not by 1. -/
theorem make_request_retry_success_count (outcomes : Nat → Option Response)
    (draws : Nat → Rat) (s : ScraperState)
    (hdrs cks : List (String × String)) (r : Response)
    (h0 : attemptFails (outcomes 0)) (h1 : attemptFails (outcomes 1))
    (h2 : outcomes 2 = some r) (hr : r.status < 400) :
    (make_request outcomes draws s hdrs cks).result = Except.ok r ∧
    (make_request outcomes draws s hdrs cks).finalState.request_count
        = s.request_count + 3 := by
  have hrn : ¬(400 ≤ r.status ∧ r.status < 600) := by omega
  rcases o0 : outcomes 0 with _ | r0 <;> rcases o1 : outcomes 1 with _ | r1 <;>
    simp only [o0, o1, attemptFails] at h0 h1 <;>
      refine ⟨?_, ?_⟩ <;>
        simp [make_request, retryLoop, make_request_body, o0, o1, h2, h0, h1,
          hrn]

/-- Witness for C3 (amended) at the concrete outcome pattern
(network error, HTTP 500, HTTP 200) from `request_count = 0`. -/
theorem make_request_retry_success_count_witness :
    (make_request failFailOk (fun _ => 0) emptyState [] []).result
        = Except.ok { status := 200, body := "ok" } ∧
    (make_request failFailOk (fun _ => 0) emptyState [] []).finalState.request_count
        = emptyState.request_count + 3 :=
  make_request_retry_success_count failFailOk (fun _ => 0) emptyState [] []
    { status := 200, body := "ok" } trivial
    (show 400 ≤ 500 ∧ 500 < 600 by decide) rfl (by decide)

/-- C4: when every attempt fails (network error or 4xx/5xx status), the
decorated `make_request` makes exactly 3 attempts, sleeping the
exponential backoff 1 s then 2 s between them, and the call ends in a
raised failure — it never returns a response object. -/
theorem make_request_all_attempts_fail (outcomes : Nat → Option Response)
    (draws : Nat → Rat) (s : ScraperState)
    (hdrs cks : List (String × String))
    (h : ∀ i, i < 3 → attemptFails (outcomes i)) :
    (make_request outcomes draws s hdrs cks).backoffSleeps = [1, 2] ∧
    (make_request outcomes draws s hdrs cks).attempts.length = 3 ∧
    isFailure (make_request outcomes draws s hdrs cks).result = true ∧
    (∀ r, (make_request outcomes draws s hdrs cks).result ≠ Except.ok r) := by
  have h0 := h 0 (by omega)
  have h1 := h 1 (by omega)
  have h2 := h 2 (by omega)
  rcases o0 : outcomes 0 with _ | r0 <;> rcases o1 : outcomes 1 with _ | r1 <;>
    rcases o2 : outcomes 2 with _ | r2 <;>
      simp only [o0, o1, o2, attemptFails] at h0 h1 h2 <;>
        refine ⟨?_, ?_, ?_, ?_⟩ <;>
          simp [make_request, retryLoop, make_request_body, isFailure, o0, o1,
            o2, h0, h1, h2]

/-- Witness for C4: all three attempts are network errors. -/
theorem make_request_all_attempts_fail_witness :
    (make_request (fun _ => none) (fun _ => 0) emptyState [] []).backoffSleeps
        = [1, 2] ∧
    (make_request (fun _ => none) (fun _ => 0) emptyState [] []).attempts.length
        = 3 ∧
    isFailure (make_request (fun _ => none) (fun _ => 0) emptyState [] []).result
        = true ∧
    (∀ r, (make_request (fun _ => none) (fun _ => 0) emptyState [] []).result
        ≠ Except.ok r) :=
  make_request_all_attempts_fail (fun _ => none) (fun _ => 0) emptyState [] []
    (fun _ _ => trivial)

/-! ## `save_to_csv` (basescraper.py lines 242-339)

The CSV file is abstracted by its decoded rows: `none` = the file does not
exist, `some rows` = it exists with those rows (`[]` = empty file, i.e.
`os.path.getsize == 0`).  A record passed in `data` is either a Python
dict (ordered key/value pairs), a list of strings, or something else
(`other`, e.g. an int).  The result carries the file content after the
call and the exception message re-raised at line 339, if any.

Faithful details from the source: after `next(reader)` consumed the first
row (line 290), `f.seek(0)` (line 298) rewinds the file, so
`list(reader)` (line 299) yields ALL rows including the first; line 303
then inserts the mismatched header again.  And when the rewritten `data`
starts with a plain list, the `csv.writer` branch (lines 328-332) is
taken for every row, and iterating a Python dict yields its KEYS. -/

inductive PyRow where
  | dict : List (String × String) → PyRow
  | strs : List String → PyRow
  | other : PyRow
deriving Repr, DecidableEq

structure SaveResult where
  fileAfter : Option (List (List String))
  raised : Option String
deriving Repr, DecidableEq

/-- Line 274: `fieldnames = fieldnames or list(data[0].keys())` — a falsy
(missing or empty) fieldnames argument falls back to the first dict's
keys. -/
def fieldnamesOrKeys (arg : Option (List String)) (keys : List String) :
    List String :=
  match arg with
  | some fs => if fs = [] then keys else fs
  | none => keys

/-- Python truthiness of the (optional) fieldnames list. -/
def pyTruthyFields : Option (List String) → Bool
  | some fs => decide (fs ≠ [])
  | none => false

/-- One `csv.DictWriter` data row: the values in fieldnames order, with
`restval`'s default (rendered `""`) for absent keys. -/
def dictWriterRow (fns : List String) (kvs : List (String × String)) :
    List String :=
  fns.map (fun k => ((kvs.find? (fun p => p.1 = k)).map Prod.snd).getD "")

/-- `csv.DictWriter.writerows` (line 327): rows are written in order until
one raises — a dict with a key outside `fieldnames` raises `ValueError`,
a non-dict row raises `AttributeError`.  Returns the rows that reached the
file and the exception, if any. -/
def dictWriterRows (fns : List String) : List PyRow → List (List String) × Option String
  | [] => ([], none)
  | PyRow.dict kvs :: rest =>
    if kvs.all (fun p => fns.contains p.1) then
      let (ws, e) := dictWriterRows fns rest
      (dictWriterRow fns kvs :: ws, e)
    else ([], some "ValueError: dict contains fields not in fieldnames")
  | _ :: _ => ([], some "AttributeError")

/-- `csv.writer.writerows` (line 332): a list row is written as is, a dict
row is written as its keys (iterating a Python dict yields keys), anything
non-iterable raises `csv.Error`. -/
def csvWriterRows : List PyRow → List (List String) × Option String
  | [] => ([], none)
  | PyRow.strs xs :: rest =>
    let (ws, e) := csvWriterRows rest
    (xs :: ws, e)
  | PyRow.dict kvs :: rest =>
    let (ws, e) := csvWriterRows rest
    (kvs.map Prod.fst :: ws, e)
  | PyRow.other :: _ => ([], some "Error: iterable expected")

/-- `save_to_csv(data, filename, fieldnames=None, mode='a')`
(lines 242-339), over the abstract file state. -/
def save_to_csv (data : List PyRow) (file : Option (List (List String)))
    (fieldnamesArg : Option (List String)) (mode : String) : SaveResult :=
  if data = [] then { fileAfter := file, raised := none }
  else
    let step1 : Except String (Option (List String)) :=
      match data.head? with
      | some (PyRow.dict kvs) =>
        Except.ok (some (fieldnamesOrKeys fieldnamesArg (kvs.map Prod.fst)))
      | some (PyRow.strs _) =>
        if pyTruthyFields fieldnamesArg then Except.ok fieldnamesArg
        else Except.error "ValueError: Fieldnames required for list data"
      | _ => Except.ok fieldnamesArg
    match step1 with
    | Except.error e => { fileAfter := file, raised := some e }
    | Except.ok fieldnames =>
      let (header_needed, write_mode, data2) :=
        if mode = "a" ∧ file.isSome then
          let rows := file.getD []
          if rows ≠ [] then
            match rows.head? with
            | some hdr =>
              if hdr ≠ [] ∧ fieldnames = some hdr then (false, mode, data)
              else
                let existing_data :=
                  if hdr ≠ [] ∧ fieldnames ≠ some hdr then hdr :: rows else rows
                (true, "w", existing_data.map PyRow.strs ++ data)
            | none => (true, mode, data)
          else (true, mode, data)
        else (true, mode, data)
      let base := if write_mode = "w" then [] else file.getD []
      match data2.head? with
      | some (PyRow.dict _) =>
        let headerRows :=
          if write_mode = "w" ∨ header_needed then [fieldnames.getD []] else []
        let (written, err) := dictWriterRows (fieldnames.getD []) data2
        { fileAfter := some (base ++ headerRows ++ written), raised := err }
      | some (PyRow.strs _) =>
        let headerRows :=
          if (write_mode = "w" ∨ header_needed) ∧ pyTruthyFields fieldnames then
            [fieldnames.getD []]
          else []
        let (written, err) := csvWriterRows data2
        { fileAfter := some (base ++ headerRows ++ written), raised := err }
      | _ =>
        { fileAfter := some base,
          raised := some "ValueError: Data must be a list of dictionaries or lists" }

/-- C2: appending one record `{x: 3, y: 4}` to a file whose stale header
`a,b` differs from the expected fields `x,y` does NOT produce
(new header, old rows with the stale header once, new record's values):
the code duplicates the stale header (the `seek(0)` at line 298 already
re-read it before line 303 inserts it again) and writes the new dict
through `csv.writer`, which renders it as its keys `x,y` instead of its
values `3,4`. -/
theorem save_to_csv_header_rewrite_diverges :
    save_to_csv [PyRow.dict [("x", "3"), ("y", "4")]]
        (some [["a", "b"], ["1", "2"]]) none "a"
      = { fileAfter :=
            some [["x", "y"], ["a", "b"], ["a", "b"], ["1", "2"], ["x", "y"]],
          raised := none } ∧
    (save_to_csv [PyRow.dict [("x", "3"), ("y", "4")]]
        (some [["a", "b"], ["1", "2"]]) none "a").fileAfter
      ≠ some [["x", "y"], ["a", "b"], ["1", "2"], ["3", "4"]] := by
  refine ⟨by decide, by decide⟩

/-- C9 counterexample: calling `save_to_csv` with the invalid records
input `[42]` (neither dict nor list) raises a `ValueError` — re-raised at
line 339, not a warning no-op — and, the target file being absent, leaves
behind a newly created empty file (line 322 opens it before the type check
at line 334). -/
theorem save_to_csv_invalid_input_raises :
    (save_to_csv [PyRow.other] none none "a").raised ≠ none ∧
    (save_to_csv [PyRow.other] none none "a").fileAfter ≠ none := by
  refine ⟨by decide, by decide⟩

/-- C9 (amended): an empty records input logs a warning and is a no-op —
no exception, file untouched; an invalid records input instead raises a
`ValueError`: list rows without a fieldnames argument raise before the
file is touched (line 277), and a first element that is neither dict nor
list raises after the file has been opened — creating it empty if it was
absent (lines 322, 334). -/
theorem save_to_csv_empty_noop_invalid_raises :
    (∀ file fieldnamesArg mode,
      save_to_csv [] file fieldnamesArg mode
        = { fileAfter := file, raised := none }) ∧
    (∀ xs rest file mode,
      save_to_csv (PyRow.strs xs :: rest) file none mode
        = { fileAfter := file,
            raised := some "ValueError: Fieldnames required for list data" }) ∧
    (∀ rest,
      save_to_csv (PyRow.other :: rest) none none "a"
        = { fileAfter := some [],
            raised :=
              some "ValueError: Data must be a list of dictionaries or lists" }) :=
  ⟨fun _ _ _ => rfl, fun _ _ _ _ => rfl, fun _ => rfl⟩

end QualitEnr
